import Mathlib

/-!
Verification of the event-ingestion gateway core of the clawdbot-plugin-feishu
repository against its natural-language specification.

The development shallowly embeds the relevant source functions:

* `Gateway` — the watermark filter (`isStaleMessage` / `updateWatermark`),
  the event deduplicator (`isDuplicateEvent` / `cleanupDedupEntries`), the
  dedup-key selection of the `im.message.receive_v1` handler (`dedupStage`),
  the per-chat serial queue (`processQueue`) and the reconnect loop with
  exponential backoff (`calculateBackoffDelay` / `runReconnect`), all from
  `src/core/gateway.ts`.  Mutable `Map`s are embedded extensionally as
  functions from keys to `Option` values; `Date.now()` is passed explicitly;
  JavaScript numbers holding millisecond timestamps are embedded as `Int`
  where the source subtracts them and as `Nat` elsewhere.

* `ChatBatcher` — the older message batcher `createChatBatcher` from the
  repository (debounce 500 ms, idle threshold 1000 ms, startup wait 10 s).
  Pending `setTimeout` handles are embedded as absolute fire deadlines; a
  debounce timeout also stores the `triggerId` its callback captured.

* `BatchProcessor` — the per-conversation timing state machine of
  `src/core/batch-processor.ts`, modelled from the specification (see the
  doc comment on that namespace).
-/

namespace Gateway

/-- Dedup retention window, 24 hours in milliseconds (`DEDUP_WINDOW_MS`). -/
def DEDUP_WINDOW_MS : Int := 24 * 60 * 60 * 1000

/-- Base reconnect delay in milliseconds (`RECONNECT_BASE_DELAY_MS`). -/
def RECONNECT_BASE_DELAY_MS : Nat := 1000

/-- Maximum reconnect delay in milliseconds (`RECONNECT_MAX_DELAY_MS`). -/
def RECONNECT_MAX_DELAY_MS : Nat := 60000

/-- Maximum reconnect attempts (`RECONNECT_MAX_ATTEMPTS`). -/
def RECONNECT_MAX_ATTEMPTS : Nat := 20

/-- The per-chat watermark map `chatWatermarks`, embedded extensionally. -/
abbrev Watermarks := String → Option Nat

/-- Embeds `isStaleMessage` of `src/core/gateway.ts`: a message is stale when
its create time is at or before the watermark of its chat (0 when absent). -/
def isStaleMessage (wm : Watermarks) (chatId : String) (createTime : Nat) : Bool :=
  createTime ≤ (wm chatId).getD 0

/-- Embeds `updateWatermark` of `src/core/gateway.ts`: the watermark is set to
the create time only when the create time is strictly greater. -/
def updateWatermark (wm : Watermarks) (chatId : String) (createTime : Nat) : Watermarks :=
  fun c =>
    if c = chatId then
      if createTime > (wm chatId).getD 0 then some createTime else wm chatId
    else wm c

/-- The dedup map `processedEvents`, keyed by event id, holding the
`timestamp` field of each `DedupEntry`; embedded extensionally. -/
abbrev DedupMap := String → Option Int

/-- Embeds `isDuplicateEvent` of `src/core/gateway.ts`: returns `true` and an
unchanged map when the id is present; otherwise records the id with the
current time and returns `false`. -/
def isDuplicateEvent (m : DedupMap) (eventId : String) (now : Int) : Bool × DedupMap :=
  match m eventId with
  | some _ => (true, m)
  | none => (false, fun k => if k = eventId then some now else m k)

/-- Embeds `cleanupDedupEntries` of `src/core/gateway.ts`: deletes every entry
whose timestamp is strictly before `now - DEDUP_WINDOW_MS`. -/
def cleanupDedupEntries (m : DedupMap) (now : Int) : DedupMap :=
  fun k =>
    match m k with
    | some ts => if ts < now - DEDUP_WINDOW_MS then none else some ts
    | none => none

/-- Embeds the dedup-key selection `event.event_id ?? event.message?.message_id`
of the `im.message.receive_v1` handler. -/
def dedupKeyOf (eventId messageId : Option String) : Option String :=
  match eventId with
  | some k => some k
  | none => messageId

/-- Embeds the deduplication stage of the `im.message.receive_v1` handler:
`if (dedupKey && isDuplicateEvent(dedupKey)) return`.  The first component is
whether the event is skipped as a duplicate; a missing or empty (falsy) key
short-circuits the conjunction, so `isDuplicateEvent` is never invoked and the
map is unchanged. -/
def dedupStage (m : DedupMap) (eventId messageId : Option String) (now : Int) :
    Bool × DedupMap :=
  match dedupKeyOf eventId messageId with
  | none => (false, m)
  | some k => if k = "" then (false, m) else isDuplicateEvent m k now

/-- Embeds `calculateBackoffDelay` of `src/core/gateway.ts`. -/
def calculateBackoffDelay (attempt : Nat) : Nat :=
  min (RECONNECT_BASE_DELAY_MS * 2 ^ attempt) RECONNECT_MAX_DELAY_MS

/-- Outcome of one connection attempt inside `startWithReconnect`. -/
inductive ConnOutcome
  | success
  | failure
deriving DecidableEq, Repr

/-- Observable result of the reconnect loop of `startWithReconnect`. -/
inductive ReconnectResult
  /-- The connection succeeded; `reconnectAttempts` was reset. -/
  | connected (reconnectAttempts : Nat)
  /-- The loop threw the terminal error to the caller. -/
  | fatal (message : String)
  /-- The supplied outcome trace ended with the loop still retrying. -/
  | pending (reconnectAttempts : Nat)
deriving DecidableEq, Repr

/-- Embeds the reconnect loop of `startWithReconnect` in `src/core/gateway.ts`
over a trace of connection outcomes.  On failure the attempt counter is
incremented; reaching `RECONNECT_MAX_ATTEMPTS` throws the terminal error,
otherwise the loop sleeps `calculateBackoffDelay` of the new counter and
retries.  On success the counter is reset to 0 and the loop blocks until a
stop is requested (so later outcomes are not consumed).  Returns the list of
slept delays in order together with the result. -/
def runReconnect (reconnectAttempts : Nat) :
    List ConnOutcome → List Nat × ReconnectResult
  | [] => ([], ReconnectResult.pending reconnectAttempts)
  | ConnOutcome.success :: _ => ([], ReconnectResult.connected 0)
  | ConnOutcome.failure :: rest =>
    let a := reconnectAttempts + 1
    if a ≥ RECONNECT_MAX_ATTEMPTS then
      ([], ReconnectResult.fatal "WebSocket connection failed after 20 attempts")
    else
      let d := calculateBackoffDelay a
      let p := runReconnect a rest
      (d :: p.1, p.2)

/-- One queued message of a `ChatQueue`: the handler is embedded by its
identity together with the outcome awaiting it produces. -/
structure QueuedMessage where
  id : Nat
  result : Except String Unit
deriving Repr

/-- Embeds the `ChatQueue` record of `src/core/gateway.ts`. -/
structure ChatQueue where
  messages : List QueuedMessage
  processing : Bool
deriving Repr

/-- The `chatQueues` map, embedded extensionally. -/
abbrev ChatQueues := String → Option ChatQueue

/-- One observable step of the drain loop: a handler ran to completion, or an
error it raised was logged. -/
inductive TraceEntry
  | ran (id : Nat)
  | logged (err : String)
deriving DecidableEq, Repr

/-- Embeds the `while` body of `processQueue`: shift the front message, await
its handler, log an error it raises, and continue with the next message. -/
def drainLoop : List QueuedMessage → List TraceEntry
  | [] => []
  | item :: rest =>
    match item.result with
    | Except.ok _ => TraceEntry.ran item.id :: drainLoop rest
    | Except.error e => TraceEntry.ran item.id :: TraceEntry.logged e :: drainLoop rest

/-- Embeds `processQueue` of `src/core/gateway.ts`: a missing or already
processing queue is left alone; otherwise the queue is drained in FIFO order
and its emptied entry is deleted from `chatQueues`. -/
def processQueue (queues : ChatQueues) (chatId : String) :
    List TraceEntry × ChatQueues :=
  match queues chatId with
  | none => ([], queues)
  | some q =>
    if q.processing then ([], queues)
    else (drainLoop q.messages, fun c => if c = chatId then none else queues c)

/-- Extracts the id of a `ran` trace entry. -/
def ranId : TraceEntry → Option Nat
  | TraceEntry.ran i => some i
  | TraceEntry.logged _ => none

/-- Extracts the message of a `logged` trace entry. -/
def loggedErr : TraceEntry → Option String
  | TraceEntry.ran _ => none
  | TraceEntry.logged e => some e

/-- Extracts the error of a handler outcome. -/
def errOf : Except String Unit → Option String
  | Except.ok _ => none
  | Except.error e => some e

end Gateway

namespace ChatBatcher

/-- Startup wait in milliseconds (`STARTUP_WAIT_MS` of the batcher source). -/
def STARTUP_WAIT_MS : Nat := 10000

/-- Idle threshold in milliseconds (`IDLE_THRESHOLD_MS`). -/
def IDLE_THRESHOLD_MS : Nat := 1000

/-- Debounce delay in milliseconds (`DEBOUNCE_MS`). -/
def DEBOUNCE_MS : Nat := 500

/-- Embeds `ParsedMessage` with the fields the batcher reads. -/
structure ParsedMessage where
  chatId : String
  msgId : Nat
deriving DecidableEq, Repr

/-- Embeds the `BatchFlushEvent` record of the batcher source. -/
structure BatchFlushEvent where
  chatId : String
  messages : List ParsedMessage
  triggeredBy : String
  triggeredAt : Nat
deriving DecidableEq, Repr

/-- Embeds the per-chat `ChatState` of `createChatBatcher`.  A pending
`setTimeout` handle is embedded as its absolute fire deadline; the debounce
timeout additionally stores the `triggerId` its callback captured. -/
structure ChatState where
  buffer : List ParsedMessage
  hasTrigger : Bool
  triggerId : Option String
  debounceTimer : Option (Nat × String)
  idleTimer : Option Nat
  lastMessageAt : Nat
deriving DecidableEq, Repr

/-- The closure state of one `createChatBatcher` instance: the `startedAt`
argument, the `chatStates` map (as an association list in insertion order)
and the list of `BatchFlushEvent`s handed to the registered flush callback,
in invocation order. -/
structure Batcher where
  startedAt : Nat
  chatStates : List (String × ChatState)
  flushed : List BatchFlushEvent
deriving DecidableEq, Repr

/-- Replaces the state stored for `chatId`, appending it when absent. -/
def setChat (m : List (String × ChatState)) (chatId : String) (st : ChatState) :
    List (String × ChatState) :=
  match m with
  | [] => [(chatId, st)]
  | (c, s) :: rest =>
    if c = chatId then (c, st) :: rest else (c, s) :: setChat rest chatId st

/-- Embeds `flush` of `createChatBatcher`: a missing state or an empty buffer
is a no-op; otherwise the buffer is captured into a `BatchFlushEvent`, the
state is cleared (buffer, trigger flag, trigger id and both timers) and only
then is the flush callback invoked with the event. -/
def flush (b : Batcher) (chatId triggeredBy : String) (now : Nat) : Batcher :=
  match b.chatStates.lookup chatId with
  | none => b
  | some state =>
    if state.buffer = [] then b
    else
      let event : BatchFlushEvent :=
        { chatId := chatId, messages := state.buffer,
          triggeredBy := triggeredBy, triggeredAt := now }
      let state2 : ChatState :=
        { state with buffer := [], hasTrigger := false, triggerId := none,
                     debounceTimer := none, idleTimer := none }
      { b with chatStates := setChat b.chatStates chatId state2,
               flushed := b.flushed ++ [event] }

/-- Embeds `getOrCreateState`. -/
def getOrCreateState (m : List (String × ChatState)) (chatId : String) : ChatState :=
  match m.lookup chatId with
  | some st => st
  | none =>
    { buffer := [], hasTrigger := false, triggerId := none,
      debounceTimer := none, idleTimer := none, lastMessageAt := 0 }

/-- Embeds `push`: appends the message to the buffer of its chat, records the
arrival time and restarts the idle timer. -/
def push (b : Batcher) (now : Nat) (message : ParsedMessage) : Batcher :=
  let st := getOrCreateState b.chatStates message.chatId
  let st2 : ChatState :=
    { st with buffer := st.buffer ++ [message], lastMessageAt := now,
              idleTimer := some (now + IDLE_THRESHOLD_MS) }
  { b with chatStates := setChat b.chatStates message.chatId st2 }

/-- Embeds `trigger`: marks the chat as needing a flush and restarts the
debounce timer, whose callback captures the given trigger id. -/
def trigger (b : Batcher) (now : Nat) (chatId triggerId : String) : Batcher :=
  let st := getOrCreateState b.chatStates chatId
  let st2 : ChatState :=
    { st with hasTrigger := true, triggerId := some triggerId,
              debounceTimer := some (now + DEBOUNCE_MS, triggerId) }
  { b with chatStates := setChat b.chatStates chatId st2 }

/-- Embeds `clear`: cancels the timers of the chat and deletes its entry. -/
def clear (b : Batcher) (chatId : String) : Batcher :=
  { b with chatStates := b.chatStates.filter (fun p => p.1 ≠ chatId) }

/-- Embeds `dispose`: cancels every timer of every chat and clears the map. -/
def dispose (b : Batcher) : Batcher :=
  { b with chatStates := [] }

/-- Which of the two timers of a chat state fired. -/
inductive TimerKind
  | debounce
  | idle
deriving DecidableEq, Repr

/-- The pending timeouts of one chat state that are due at or before `t`. -/
def dueOfChat (c : String) (st : ChatState) (t : Nat) :
    List (String × TimerKind × Nat) :=
  (match st.debounceTimer with
   | some p => if p.1 ≤ t then [(c, TimerKind.debounce, p.1)] else []
   | none => []) ++
  (match st.idleTimer with
   | some d => if d ≤ t then [(c, TimerKind.idle, d)] else []
   | none => [])

/-- All pending timeouts due at or before `t`, in map order. -/
def dueTimers (b : Batcher) (t : Nat) : List (String × TimerKind × Nat) :=
  b.chatStates.foldr (fun p acc => dueOfChat p.1 p.2 t ++ acc) []

/-- Picks the due timeout with the smallest deadline, keeping the earlier
list position on ties (approximating the registration order of the event
loop). -/
def pickEarliest : List (String × TimerKind × Nat) → Option (String × TimerKind × Nat)
  | [] => none
  | x :: xs =>
    match pickEarliest xs with
    | none => some x
    | some y => if y.2.2 < x.2.2 then some y else some x

/-- Fires one due timeout at its deadline `d`: the handle is consumed, then
the callback of the source runs.  A debounce callback calls `flush` with the
captured trigger id unconditionally; an idle callback calls `flush` only when
the chat still has its trigger flag and the batcher is no longer inside the
startup period at fire time. -/
def fireTimer (b : Batcher) (chatId : String) (k : TimerKind) (d : Nat) : Batcher :=
  match b.chatStates.lookup chatId with
  | none => b
  | some st =>
    match k with
    | TimerKind.debounce =>
      match st.debounceTimer with
      | none => b
      | some p =>
        let st2 : ChatState := { st with debounceTimer := none }
        let b2 := { b with chatStates := setChat b.chatStates chatId st2 }
        flush b2 chatId p.2 d
    | TimerKind.idle =>
      let st2 : ChatState := { st with idleTimer := none }
      let b2 := { b with chatStates := setChat b.chatStates chatId st2 }
      if st.hasTrigger ∧ ¬(d - b.startedAt < STARTUP_WAIT_MS) then
        flush b2 chatId (st.triggerId.getD "idle-timeout") d
      else b2

/-- Number of pending timeouts of one chat state. -/
def setTimerCount (st : ChatState) : Nat :=
  (if st.debounceTimer.isSome then 1 else 0) + (if st.idleTimer.isSome then 1 else 0)

/-- Number of pending timeouts of the whole batcher. -/
def timerCount (b : Batcher) : Nat :=
  (b.chatStates.map (fun p => setTimerCount p.2)).sum

/-- Fires due timeouts one at a time, earliest first.  Callbacks never set new
timeouts, so the pending-timeout count bounds the number of firings. -/
def advanceToAux : Nat → Batcher → Nat → Batcher
  | 0, b, _ => b
  | fuel + 1, b, t =>
    match pickEarliest (dueTimers b t) with
    | none => b
    | some x => advanceToAux fuel (fireTimer b x.1 x.2.1 x.2.2) t

/-- Advances the clock to `t`, firing every timeout due at or before `t`. -/
def advanceTo (b : Batcher) (t : Nat) : Batcher :=
  advanceToAux (timerCount b) b t

end ChatBatcher

namespace BatchProcessor

/-!
Modelled from the spec: the `BatchProcessor` class of
`src/core/batch-processor.ts` is imported by `src/core/gateway.ts` and
exercised by `src/tests/unit/core/batch-processor.test.ts`, but the file
itself is not part of the available sources (only the older
`createChatBatcher`, embedded above, is).  The definitions below therefore
follow the specification, section 4.5: the processor is a per-conversation
timing state machine, so one conversation is modelled.  A message is
appended to the buffer; during the startup window after gateway start all
flush timers are suppressed; outside the window a message with a trigger
condition arms the conversation, arming starts a debounce timer reset by
every further message of an armed conversation and, on the first trigger
only, a max-wait timer that is never reset; a flush fires on whichever
timer elapses first, captures the whole buffer, clears buffer, flag and
timers and invokes the flush callback once.  The timing constants are the
ones the unit tests document: `STARTUP_WINDOW_MS = 10000`,
`REALTIME_DEBOUNCE_MS = 2000`, `MAX_BATCH_WAIT_MS = 10000`.
-/

/-- Modelled from the spec: the startup window length `STARTUP_WINDOW_MS`. -/
def STARTUP_WINDOW_MS : Nat := 10000

/-- Modelled from the spec: the debounce delay `REALTIME_DEBOUNCE_MS`. -/
def REALTIME_DEBOUNCE_MS : Nat := 2000

/-- Modelled from the spec: the max-wait delay `MAX_BATCH_WAIT_MS`. -/
def MAX_BATCH_WAIT_MS : Nat := 10000

/-- A parsed message as the state machine sees it: an identity plus whether
it carries the trigger condition (the bot being mentioned). -/
structure Msg where
  msgId : Nat
  isTrigger : Bool
deriving DecidableEq, Repr

/-- Modelled from the spec: the batch state of one conversation, with pending
timers embedded as absolute fire deadlines, together with the flushes emitted
so far — each flush is the captured buffer plus the flush time. -/
structure State where
  buffer : List Msg
  hasTrigger : Bool
  debounceAt : Option Nat
  maxWaitAt : Option Nat
  flushes : List (List Msg × Nat)
deriving DecidableEq, Repr

/-- The initial (Idle) state of a conversation. -/
def initState : State :=
  { buffer := [], hasTrigger := false, debounceAt := none,
    maxWaitAt := none, flushes := [] }

/-- The earliest pending deadline, if any. -/
def nextDeadline (s : State) : Option Nat :=
  match s.debounceAt, s.maxWaitAt with
  | some a, some b => some (min a b)
  | some a, none => some a
  | none, some b => some b
  | none, none => none

/-- Modelled from the spec: a flush at time `fireAt` captures the entire
buffer, clears buffer, trigger flag and both timers, and invokes the flush
callback exactly once; a flush never occurs while the buffer is empty. -/
def doFlush (s : State) (fireAt : Nat) : State :=
  if s.buffer = [] then
    { s with hasTrigger := false, debounceAt := none, maxWaitAt := none }
  else
    { buffer := [], hasTrigger := false, debounceAt := none, maxWaitAt := none,
      flushes := s.flushes ++ [(s.buffer, fireAt)] }

/-- Fires the pending timer that elapses first when its deadline is at or
before `t`.  A flush clears both deadlines, so at most one flush is pending
at any moment and a single check suffices. -/
def fireTimersUpTo (s : State) (t : Nat) : State :=
  match nextDeadline s with
  | some d => if d ≤ t then doFlush s d else s
  | none => s

/-- Modelled from the spec: `processMessage` at time `t`.  Timers whose
deadlines were reached before `t` fire first.  The message is appended to the
buffer.  Inside the startup window nothing else happens (all flush timers are
suppressed).  Outside it, a message of an already armed conversation restarts
the debounce timer only; a trigger message of an unarmed conversation arms it,
starting the debounce timer and the max-wait timer; any other message only
buffers. -/
def processMessage (startedAt : Nat) (s : State) (t : Nat) (m : Msg) : State :=
  let s1 := fireTimersUpTo s t
  let s2 := { s1 with buffer := s1.buffer ++ [m] }
  if t < startedAt + STARTUP_WINDOW_MS then s2
  else if s2.hasTrigger then
    { s2 with debounceAt := some (t + REALTIME_DEBOUNCE_MS) }
  else if m.isTrigger then
    { s2 with hasTrigger := true,
              debounceAt := some (t + REALTIME_DEBOUNCE_MS),
              maxWaitAt := some (t + MAX_BATCH_WAIT_MS) }
  else s2

/-- One delivery step of the machine: `processMessage` applied to a timed
message. -/
def step (startedAt : Nat) (s : State) (e : Nat × Msg) : State :=
  processMessage startedAt s e.1 e.2

/-- Runs the state machine of one conversation over a timed message sequence
and then lets the clock advance to `endTime`. -/
def run (startedAt : Nat) (events : List (Nat × Msg)) (endTime : Nat) : State :=
  fireTimersUpTo (events.foldl (step startedAt) initState) endTime

/-- A conversation that is not armed and has no pending deadline. -/
def Unarmed (s : State) : Prop :=
  s.hasTrigger = false ∧ s.debounceAt = none ∧ s.maxWaitAt = none

/-- A conversation still owing a flush that is due no later than `endTime`:
armed, with a non-empty buffer and a debounce deadline at or before
`endTime`. -/
def ArmedBy (s : State) (endTime : Nat) : Prop :=
  s.hasTrigger = true ∧ s.buffer ≠ [] ∧ ∃ d, s.debounceAt = some d ∧ d ≤ endTime

/-- Either a flush has already been emitted or one is still owed by
`endTime`. -/
def Good (s : State) (endTime : Nat) : Prop :=
  s.flushes ≠ [] ∨ ArmedBy s endTime

/-- The debounce scenario of the specification, delivered right after the
startup window of a processor started at 0: a trigger at 10000 ms and plain
messages 500 ms and 1000 ms later. -/
def c2events : List (Nat × Msg) :=
  [(10000, ⟨1, true⟩), (10500, ⟨2, false⟩), (11000, ⟨3, false⟩)]

/-- The max-wait scenario of the specification, delivered right after the
startup window of a processor started at 0: a trigger at 10000 ms followed by
eight plain messages every 1500 ms. -/
def c3events : List (Nat × Msg) :=
  [(10000, ⟨1, true⟩), (11500, ⟨2, false⟩), (13000, ⟨3, false⟩),
   (14500, ⟨4, false⟩), (16000, ⟨5, false⟩), (17500, ⟨6, false⟩),
   (19000, ⟨7, false⟩), (20500, ⟨8, false⟩), (22000, ⟨9, false⟩)]

end BatchProcessor

/-- A concrete queue map for the C7 witness: three jobs, the middle one
throwing. -/
def c7queues : Gateway.ChatQueues :=
  fun c =>
    if c = "chat-1" then
      some { messages := [⟨1, Except.ok ()⟩, ⟨2, Except.error "boom"⟩, ⟨3, Except.ok ()⟩],
             processing := false }
    else none

/-- A concrete batcher for the C8 witness: one chat holding one buffered
message, armed, with both timers pending. -/
def c8batcher : ChatBatcher.Batcher :=
  { startedAt := 0,
    chatStates :=
      [("chat-1",
        { buffer := [⟨"chat-1", 1⟩], hasTrigger := true, triggerId := some "msg-1",
          debounceTimer := some (500, "msg-1"), idleTimer := some 1000,
          lastMessageAt := 0 })],
    flushed := [] }

/-- C4: the staleness check accepts exactly the create times at or below the
watermark of the conversation, defaulting to 0 when absent; advancing sets the
watermark to the maximum of the current value and the create time; hence, for
timestamps t1 < t2, once t2 has been accepted a later check of t1 is rejected
as stale and a later check of t2 itself is also rejected. -/
theorem C4_watermark_filter :
    ∀ (wm : Gateway.Watermarks) (c : String) (t t1 t2 : Nat),
      (Gateway.isStaleMessage wm c t = true ↔ t ≤ (wm c).getD 0)
      ∧ ((Gateway.updateWatermark wm c t) c).getD 0 = max ((wm c).getD 0) t
      ∧ (t1 < t2 →
          Gateway.isStaleMessage (Gateway.updateWatermark wm c t2) c t1 = true
          ∧ Gateway.isStaleMessage (Gateway.updateWatermark wm c t2) c t2 = true) := by
  intro wm c t t1 t2
  have hmax : ∀ u : Nat, ((Gateway.updateWatermark wm c u) c).getD 0
      = max ((wm c).getD 0) u := by
    intro u
    have hc : (Gateway.updateWatermark wm c u) c
        = if u > (wm c).getD 0 then some u else wm c := by
      simp [Gateway.updateWatermark]
    rw [hc]
    by_cases h : u > (wm c).getD 0
    · rw [if_pos h, Option.getD_some]
      omega
    · rw [if_neg h]
      omega
  refine ⟨?_, hmax t, ?_⟩
  · simp [Gateway.isStaleMessage]
  · intro h12
    constructor
    · simp only [Gateway.isStaleMessage, hmax t2, decide_eq_true_eq]
      omega
    · simp only [Gateway.isStaleMessage, hmax t2, decide_eq_true_eq]
      omega

/-- Witness for C4 at a concrete conversation and timestamps 3 < 7 against an
empty watermark map. -/
theorem C4_watermark_filter_witness :
    Gateway.isStaleMessage (Gateway.updateWatermark (fun _ => none) "chat" 7) "chat" 3 = true
    ∧ Gateway.isStaleMessage (Gateway.updateWatermark (fun _ => none) "chat" 7) "chat" 7 = true :=
  (C4_watermark_filter (fun _ => none) "chat" 5 3 7).2.2 (by omega)

/-- States that a recorded id is reported as a duplicate. -/
theorem isDuplicate_of_mem (m2 : Gateway.DedupMap) (e : String) (now ts : Int)
    (h : m2 e = some ts) : (Gateway.isDuplicateEvent m2 e now).1 = true := by
  simp [Gateway.isDuplicateEvent, h]

/-- States that a fresh id passes the duplicate check and is recorded. -/
theorem isDuplicate_of_fresh (m2 : Gateway.DedupMap) (e : String) (now : Int)
    (h : m2 e = none) :
    (Gateway.isDuplicateEvent m2 e now).1 = false
    ∧ (Gateway.isDuplicateEvent m2 e now).2 e = some now := by
  simp [Gateway.isDuplicateEvent, h]

/-- C5: the first deduplicator call with a fresh event id returns `false` and
records the id at the current time; a later call within the 24-hour window
returns `true`; once the window has elapsed and the periodic sweep has run, a
further call returns `false` again. -/
theorem C5_dedup_window :
    ∀ (m : Gateway.DedupMap) (e : String) (now now2 now3 : Int),
      m e = none →
      (Gateway.isDuplicateEvent m e now).1 = false
      ∧ (Gateway.isDuplicateEvent m e now).2 e = some now
      ∧ (now2 - now ≤ Gateway.DEDUP_WINDOW_MS →
          (Gateway.isDuplicateEvent (Gateway.isDuplicateEvent m e now).2 e now2).1 = true)
      ∧ (Gateway.DEDUP_WINDOW_MS < now3 - now →
          (Gateway.isDuplicateEvent
              (Gateway.cleanupDedupEntries (Gateway.isDuplicateEvent m e now).2 now3)
              e now3).1 = false) := by
  intro m e now now2 now3 hm
  obtain ⟨h1, h2⟩ := isDuplicate_of_fresh m e now hm
  refine ⟨h1, h2, fun _ => isDuplicate_of_mem _ e now2 now h2, fun hold => ?_⟩
  have hcut : now < now3 - Gateway.DEDUP_WINDOW_MS := by omega
  have hclean : Gateway.cleanupDedupEntries (Gateway.isDuplicateEvent m e now).2 now3 e
      = none := by
    simp only [Gateway.cleanupDedupEntries, h2, if_pos hcut]
  exact (isDuplicate_of_fresh _ e now3 hclean).1

/-- Witness for C5 at a fresh id recorded at time 0, re-checked at time 1000
and swept one millisecond after the 24-hour window. -/
theorem C5_dedup_window_witness :
    (Gateway.isDuplicateEvent (fun _ => none) "evt" 0).1 = false
    ∧ (Gateway.isDuplicateEvent (fun _ => none) "evt" 0).2 "evt" = some 0
    ∧ (Gateway.isDuplicateEvent
        (Gateway.isDuplicateEvent (fun _ => none) "evt" 0).2 "evt" 1000).1 = true
    ∧ (Gateway.isDuplicateEvent
        (Gateway.cleanupDedupEntries
          (Gateway.isDuplicateEvent (fun _ => none) "evt" 0).2 (86400001 : Int))
        "evt" (86400001 : Int)).1 = false := by
  have h := C5_dedup_window (fun _ => none) "evt" 0 1000 86400001 rfl
  exact ⟨h.1, h.2.1, h.2.2.1 (by decide), h.2.2.2 (by decide)⟩

/-- C10: when both `event_id` and `message.message_id` are absent, the message
handler skips the deduplication stage entirely: the event is not treated as a
duplicate, no key is recorded in the dedup map, and a redelivery of the same
key-less event passes the dedup stage again. -/
theorem C10_missing_dedup_key :
    ∀ (m : Gateway.DedupMap) (now now2 : Int),
      Gateway.dedupStage m none none now = (false, m)
      ∧ Gateway.dedupStage (Gateway.dedupStage m none none now).2 none none now2
          = (false, m) := by
  intro m now now2
  exact ⟨rfl, rfl⟩

/-- Computes the delays slept by a run of consecutive connection failures
starting from attempt counter `j`, as long as the counter stays below the
maximum. -/
theorem runReconnect_replicate_failure (n j : Nat) (h : j + n ≤ 19) :
    Gateway.runReconnect j (List.replicate n Gateway.ConnOutcome.failure)
      = ((List.range n).map (fun i => Gateway.calculateBackoffDelay (j + i + 1)),
         Gateway.ReconnectResult.pending (j + n)) := by
  induction n generalizing j with
  | zero => simp [Gateway.runReconnect]
  | succ k ih =>
    rw [List.replicate_succ]
    have hj : ¬(j + 1 ≥ Gateway.RECONNECT_MAX_ATTEMPTS) := by
      simp only [Gateway.RECONNECT_MAX_ATTEMPTS]
      omega
    simp only [Gateway.runReconnect, if_neg hj]
    rw [ih (j + 1) (by omega)]
    rw [List.range_succ_eq_map, List.map_cons, List.map_map]
    have hfun : ((fun i => Gateway.calculateBackoffDelay (j + i + 1)) ∘ Nat.succ)
        = (fun i => Gateway.calculateBackoffDelay (j + 1 + i + 1)) := by
      funext i
      simp only [Function.comp_apply]
      congr 1
      omega
    rw [hfun]
    simp only [Prod.mk.injEq, List.cons.injEq]
    refine ⟨trivial, ?_⟩
    congr 1
    omega

/-- C6: on each connection failure the reconnect loop increments the attempt
counter and sleeps min(1000ms times 2 to the attempt, 60000ms) before
retrying; once the counter reaches 20 it throws the terminal error to the
caller (after 19 sleeps); on a successful connection the counter resets to 0. -/
theorem C6_backoff_reconnect :
    (∀ n, n ≤ Gateway.RECONNECT_MAX_ATTEMPTS - 1 →
      Gateway.runReconnect 0 (List.replicate n Gateway.ConnOutcome.failure)
        = ((List.range n).map (fun i =>
              min (Gateway.RECONNECT_BASE_DELAY_MS * 2 ^ (i + 1))
                Gateway.RECONNECT_MAX_DELAY_MS),
           Gateway.ReconnectResult.pending n))
    ∧ Gateway.runReconnect 0
        (List.replicate Gateway.RECONNECT_MAX_ATTEMPTS Gateway.ConnOutcome.failure)
        = ([2000, 4000, 8000, 16000, 32000, 60000, 60000, 60000, 60000, 60000, 60000,
            60000, 60000, 60000, 60000, 60000, 60000, 60000, 60000],
           Gateway.ReconnectResult.fatal "WebSocket connection failed after 20 attempts")
    ∧ (∀ (a : Nat) (rest : List Gateway.ConnOutcome),
        Gateway.runReconnect a (Gateway.ConnOutcome.success :: rest)
          = ([], Gateway.ReconnectResult.connected 0)) := by
  refine ⟨?_, by decide, fun a rest => rfl⟩
  intro n hn
  rw [runReconnect_replicate_failure n 0 (by
    simp only [Gateway.RECONNECT_MAX_ATTEMPTS] at hn
    omega)]
  simp [Gateway.calculateBackoffDelay]

/-- Witness for C6 at three consecutive failures from a fresh counter. -/
theorem C6_backoff_reconnect_witness :
    Gateway.runReconnect 0 (List.replicate 3 Gateway.ConnOutcome.failure)
      = ([2000, 4000, 8000], Gateway.ReconnectResult.pending 3) := by
  rw [C6_backoff_reconnect.1 3 (by decide)]
  decide

/-- The ids the drain loop runs are exactly the queued ids, in FIFO order. -/
theorem drainLoop_ran (l : List Gateway.QueuedMessage) :
    (Gateway.drainLoop l).filterMap Gateway.ranId
      = l.map Gateway.QueuedMessage.id := by
  induction l with
  | nil => rfl
  | cons x rest ih =>
    cases hx : x.result <;>
      simp [Gateway.drainLoop, hx, Gateway.ranId, ih]

/-- The errors the drain loop logs are exactly those of the failing handlers,
in FIFO order. -/
theorem drainLoop_logged (l : List Gateway.QueuedMessage) :
    (Gateway.drainLoop l).filterMap Gateway.loggedErr
      = l.filterMap (fun j => Gateway.errOf j.result) := by
  induction l with
  | nil => rfl
  | cons x rest ih =>
    cases hx : x.result <;>
      simp [Gateway.drainLoop, hx, Gateway.ranId, Gateway.loggedErr, Gateway.errOf, ih]

/-- C7: the drain loop runs every queued job in FIFO order, a job that throws
is logged without stopping the loop (all later jobs still run), and after the
queue empties its map entry is deleted. -/
theorem C7_serial_queue_drain :
    ∀ (queues : Gateway.ChatQueues) (chatId : String) (q : Gateway.ChatQueue),
      queues chatId = some q → q.processing = false →
      ((Gateway.processQueue queues chatId).1.filterMap Gateway.ranId
         = q.messages.map Gateway.QueuedMessage.id)
      ∧ ((Gateway.processQueue queues chatId).1.filterMap Gateway.loggedErr
         = q.messages.filterMap (fun j => Gateway.errOf j.result))
      ∧ (Gateway.processQueue queues chatId).2 chatId = none := by
  intro queues chatId q hq hp
  simp [Gateway.processQueue, hq, hp, drainLoop_ran, drainLoop_logged]

/-- Witness for C7 on a three-job queue whose middle job throws. -/
theorem C7_serial_queue_drain_witness :
    ((Gateway.processQueue c7queues "chat-1").1.filterMap Gateway.ranId = [1, 2, 3])
    ∧ ((Gateway.processQueue c7queues "chat-1").1.filterMap Gateway.loggedErr = ["boom"])
    ∧ (Gateway.processQueue c7queues "chat-1").2 "chat-1" = none := by
  have h := C7_serial_queue_drain c7queues "chat-1"
    { messages := [⟨1, Except.ok ()⟩, ⟨2, Except.error "boom"⟩, ⟨3, Except.ok ()⟩],
      processing := false }
    rfl rfl
  simpa using h

/-- Looking up a chat after storing a state for it yields that state. -/
theorem lookup_setChat (m : List (String × ChatBatcher.ChatState)) (c : String)
    (st : ChatBatcher.ChatState) :
    (ChatBatcher.setChat m c st).lookup c = some st := by
  induction m with
  | nil => simp [ChatBatcher.setChat, List.lookup]
  | cons p rest ih =>
    obtain ⟨k, s⟩ := p
    by_cases hk : k = c
    · subst hk
      simp [ChatBatcher.setChat, List.lookup]
    · have hck : (c == k) = false :=
        beq_eq_false_iff_ne.mpr (fun h2 => hk h2.symm)
      simp only [ChatBatcher.setChat, if_neg hk, List.lookup, hck]
      exact ih

/-- Characterizes `flush`: it is a no-op when the chat has no state or an
empty buffer, and otherwise captures the buffer into an event appended to the
callback log while resetting the chat state. -/
theorem flush_spec (b : ChatBatcher.Batcher) (chatId trig : String) (now : Nat) :
    (b.chatStates.lookup chatId = none ∧ ChatBatcher.flush b chatId trig now = b)
    ∨ (∃ st, b.chatStates.lookup chatId = some st ∧ st.buffer = []
        ∧ ChatBatcher.flush b chatId trig now = b)
    ∨ (∃ st, b.chatStates.lookup chatId = some st ∧ st.buffer ≠ []
        ∧ ChatBatcher.flush b chatId trig now =
          { b with
            chatStates := ChatBatcher.setChat b.chatStates chatId
              { st with buffer := [], hasTrigger := false, triggerId := none,
                        debounceTimer := none, idleTimer := none },
            flushed := b.flushed ++
              [{ chatId := chatId, messages := st.buffer,
                 triggeredBy := trig, triggeredAt := now }] }) := by
  rcases hlk : b.chatStates.lookup chatId with _ | st
  · exact Or.inl ⟨rfl, by simp [ChatBatcher.flush, hlk]⟩
  · by_cases hb : st.buffer = []
    · exact Or.inr (Or.inl ⟨st, rfl, hb, by simp [ChatBatcher.flush, hlk, hb]⟩)
    · exact Or.inr (Or.inr ⟨st, rfl, hb, by simp [ChatBatcher.flush, hlk, hb]⟩)

/-- C8: whenever the batcher invokes the flush callback, the captured message
list is non-empty, the state of the conversation (buffer, trigger flag,
trigger id and both timers) has already been reset when the callback runs,
and a second flush of the same conversation emits nothing — the flushed turn
cannot be re-flushed. -/
theorem C8_flush_nonempty_reset :
    ∀ (b : ChatBatcher.Batcher) (chatId trig : String) (now : Nat)
      (ev : ChatBatcher.BatchFlushEvent),
      (ChatBatcher.flush b chatId trig now).flushed = b.flushed ++ [ev] →
      ev.messages ≠ []
      ∧ (∃ st2, (ChatBatcher.flush b chatId trig now).chatStates.lookup chatId = some st2
          ∧ st2.buffer = [] ∧ st2.hasTrigger = false ∧ st2.triggerId = none
          ∧ st2.debounceTimer = none ∧ st2.idleTimer = none)
      ∧ (∀ (trig2 : String) (now2 : Nat),
          (ChatBatcher.flush (ChatBatcher.flush b chatId trig now) chatId trig2 now2).flushed
            = (ChatBatcher.flush b chatId trig now).flushed) := by
  intro b chatId trig now ev hev
  rcases flush_spec b chatId trig now with ⟨_, heq⟩ | ⟨st, _, _, heq⟩ | ⟨st, hlk, hb, heq⟩
  · rw [heq] at hev
    have := congrArg List.length hev
    simp at this
  · rw [heq] at hev
    have := congrArg List.length hev
    simp at this
  · have hlk2 : (ChatBatcher.flush b chatId trig now).chatStates.lookup chatId
        = some { st with buffer := [], hasTrigger := false, triggerId := none,
                         debounceTimer := none, idleTimer := none } := by
      rw [heq]
      exact lookup_setChat _ _ _
    have hmsg : ev.messages = st.buffer := by
      rw [heq] at hev
      simp only [List.append_cancel_left_eq, List.cons.injEq, and_true] at hev
      rw [hev.symm]  -- hev : event = ev or ev = event; adjust below if needed
    refine ⟨by rw [hmsg]; exact hb, ⟨_, hlk2, rfl, rfl, rfl, rfl, rfl⟩, ?_⟩
    intro trig2 now2
    rcases flush_spec (ChatBatcher.flush b chatId trig now) chatId trig2 now2 with
      ⟨hn, heq2⟩ | ⟨st3, _, _, heq2⟩ | ⟨st3, hlk3, hb3, heq2⟩
    · rw [heq2]
    · rw [heq2]
    · rw [hlk2] at hlk3
      have : st3.buffer = [] := by
        cases hlk3
        rfl
      exact absurd this hb3

/-- C9: after `dispose` cancels every timer and clears all per-conversation
state, advancing the clock arbitrarily far fires no timer and invokes no
flush callback. -/
theorem C9_dispose_no_flush :
    ∀ (b : ChatBatcher.Batcher) (t : Nat),
      (ChatBatcher.advanceTo (ChatBatcher.dispose b) t).flushed = b.flushed
      ∧ (ChatBatcher.advanceTo (ChatBatcher.dispose b) t).chatStates = [] := by
  intro b t
  have h : ChatBatcher.advanceTo (ChatBatcher.dispose b) t = ChatBatcher.dispose b := rfl
  rw [h]
  exact ⟨rfl, rfl⟩

/-- Witness for C8 on a one-chat batcher with a buffered armed message. -/
theorem C8_flush_nonempty_reset_witness :
    ({ chatId := "chat-1", messages := [⟨"chat-1", 1⟩], triggeredBy := "msg-1",
       triggeredAt := 500 } : ChatBatcher.BatchFlushEvent).messages ≠ []
    ∧ (∃ st2, (ChatBatcher.flush c8batcher "chat-1" "msg-1" 500).chatStates.lookup "chat-1"
          = some st2
        ∧ st2.buffer = [] ∧ st2.hasTrigger = false ∧ st2.triggerId = none
        ∧ st2.debounceTimer = none ∧ st2.idleTimer = none)
    ∧ (ChatBatcher.flush (ChatBatcher.flush c8batcher "chat-1" "msg-1" 500)
          "chat-1" "again" 9999).flushed
        = (ChatBatcher.flush c8batcher "chat-1" "msg-1" 500).flushed := by
  have h := C8_flush_nonempty_reset c8batcher "chat-1" "msg-1" 500
    { chatId := "chat-1", messages := [⟨"chat-1", 1⟩], triggeredBy := "msg-1",
      triggeredAt := 500 } (by decide)
  exact ⟨h.1, h.2.1, h.2.2 "again" 9999⟩

/-- Unarmed conversations have no pending deadline, so no timer fires. -/
theorem fireTimersUpTo_of_unarmed (s : BatchProcessor.State) (t : Nat)
    (h : BatchProcessor.Unarmed s) : BatchProcessor.fireTimersUpTo s t = s := by
  obtain ⟨_, h2, h3⟩ := h
  simp [BatchProcessor.fireTimersUpTo, BatchProcessor.nextDeadline, h2, h3]

/-- A flush of a non-empty buffer appends to the flush log. -/
theorem doFlush_flushes_of_buffer (s : BatchProcessor.State) (d : Nat)
    (hb : s.buffer ≠ []) :
    (BatchProcessor.doFlush s d).flushes = s.flushes ++ [(s.buffer, d)] := by
  simp [BatchProcessor.doFlush, hb]

/-- The flush log never shrinks across `doFlush`. -/
theorem doFlush_flushes_ne (s : BatchProcessor.State) (d : Nat)
    (hne : s.flushes ≠ []) : (BatchProcessor.doFlush s d).flushes ≠ [] := by
  by_cases hb : s.buffer = [] <;> simp [BatchProcessor.doFlush, hb, hne]

/-- The flush log never shrinks across `fireTimersUpTo`. -/
theorem fireTimersUpTo_flushes_ne (s : BatchProcessor.State) (t : Nat)
    (hne : s.flushes ≠ []) : (BatchProcessor.fireTimersUpTo s t).flushes ≠ [] := by
  cases hnd : BatchProcessor.nextDeadline s with
  | none => simpa [BatchProcessor.fireTimersUpTo, hnd] using hne
  | some d =>
    by_cases hle : d ≤ t
    · simp only [BatchProcessor.fireTimersUpTo, hnd, if_pos hle]
      exact doFlush_flushes_ne s d hne
    · simpa [BatchProcessor.fireTimersUpTo, hnd, if_neg hle] using hne

/-- The flush log of `processMessage` is the one left by the timers that
fired on arrival; delivering a message never emits a flush by itself. -/
theorem processMessage_flushes (startedAt : Nat) (s : BatchProcessor.State)
    (t : Nat) (m : BatchProcessor.Msg) :
    (BatchProcessor.processMessage startedAt s t m).flushes
      = (BatchProcessor.fireTimersUpTo s t).flushes := by
  simp only [BatchProcessor.processMessage]
  split
  · rfl
  · split
    · rfl
    · split
      · rfl
      · rfl

/-- Outside the startup window, a message of an armed conversation restarts
the debounce timer and leaves everything but the buffer unchanged. -/
theorem processMessage_armed (startedAt : Nat) (s : BatchProcessor.State)
    (t : Nat) (m : BatchProcessor.Msg)
    (ht : startedAt + BatchProcessor.STARTUP_WINDOW_MS ≤ t)
    (ha : (BatchProcessor.fireTimersUpTo s t).hasTrigger = true) :
    BatchProcessor.processMessage startedAt s t m
      = { BatchProcessor.fireTimersUpTo s t with
          buffer := (BatchProcessor.fireTimersUpTo s t).buffer ++ [m],
          debounceAt := some (t + BatchProcessor.REALTIME_DEBOUNCE_MS) } := by
  simp only [BatchProcessor.processMessage]
  rw [if_neg (by omega), if_pos ha]

/-- Outside the startup window, a trigger message of an unarmed conversation
arms it, starting the debounce timer and the max-wait timer. -/
theorem processMessage_arms (startedAt : Nat) (s : BatchProcessor.State)
    (t : Nat) (m : BatchProcessor.Msg)
    (ht : startedAt + BatchProcessor.STARTUP_WINDOW_MS ≤ t)
    (hna : (BatchProcessor.fireTimersUpTo s t).hasTrigger = false)
    (hm : m.isTrigger = true) :
    BatchProcessor.processMessage startedAt s t m
      = { BatchProcessor.fireTimersUpTo s t with
          buffer := (BatchProcessor.fireTimersUpTo s t).buffer ++ [m],
          hasTrigger := true,
          debounceAt := some (t + BatchProcessor.REALTIME_DEBOUNCE_MS),
          maxWaitAt := some (t + BatchProcessor.MAX_BATCH_WAIT_MS) } := by
  simp only [BatchProcessor.processMessage]
  rw [if_neg (by omega), if_neg (by simp [hna]), if_pos hm]

/-- Outside the startup window, a plain message of an unarmed conversation
only buffers. -/
theorem processMessage_plain (startedAt : Nat) (s : BatchProcessor.State)
    (t : Nat) (m : BatchProcessor.Msg)
    (ht : startedAt + BatchProcessor.STARTUP_WINDOW_MS ≤ t)
    (hna : (BatchProcessor.fireTimersUpTo s t).hasTrigger = false)
    (hm : m.isTrigger = false) :
    BatchProcessor.processMessage startedAt s t m
      = { BatchProcessor.fireTimersUpTo s t with
          buffer := (BatchProcessor.fireTimersUpTo s t).buffer ++ [m] } := by
  simp only [BatchProcessor.processMessage]
  rw [if_neg (by omega), if_neg (by simp [hna]), if_neg (by simp [hm])]

/-- Inside the startup window all flush timers are suppressed: a message of
an unarmed conversation only buffers. -/
theorem processMessage_startup (startedAt : Nat) (s : BatchProcessor.State)
    (t : Nat) (m : BatchProcessor.Msg)
    (ht : t < startedAt + BatchProcessor.STARTUP_WINDOW_MS)
    (hu : BatchProcessor.Unarmed s) :
    BatchProcessor.processMessage startedAt s t m
      = { s with buffer := s.buffer ++ [m] } := by
  simp only [BatchProcessor.processMessage]
  rw [fireTimersUpTo_of_unarmed s t hu, if_pos ht]

/-- A non-trigger message keeps a conversation unarmed. -/
theorem unarmed_step (startedAt : Nat) (s : BatchProcessor.State)
    (t : Nat) (m : BatchProcessor.Msg)
    (hu : BatchProcessor.Unarmed s) (hm : m.isTrigger = false) :
    BatchProcessor.Unarmed (BatchProcessor.processMessage startedAt s t m) := by
  have hfix := fireTimersUpTo_of_unarmed s t hu
  by_cases hw : t < startedAt + BatchProcessor.STARTUP_WINDOW_MS
  · rw [processMessage_startup startedAt s t m hw hu]
    exact ⟨hu.1, hu.2.1, hu.2.2⟩
  · rw [processMessage_plain startedAt s t m (by omega) (by rw [hfix]; exact hu.1) hm]
    rw [hfix]
    exact ⟨hu.1, hu.2.1, hu.2.2⟩

/-- Outside the window, a trigger message of an unarmed conversation leaves
it owing a flush. -/
theorem arm_step (startedAt endTime : Nat) (s : BatchProcessor.State)
    (t : Nat) (m : BatchProcessor.Msg)
    (ht : startedAt + BatchProcessor.STARTUP_WINDOW_MS ≤ t)
    (hd : t + BatchProcessor.REALTIME_DEBOUNCE_MS ≤ endTime)
    (hu : BatchProcessor.Unarmed s) (hm : m.isTrigger = true) :
    BatchProcessor.Good (BatchProcessor.processMessage startedAt s t m) endTime := by
  have hfix := fireTimersUpTo_of_unarmed s t hu
  rw [processMessage_arms startedAt s t m ht (by rw [hfix]; exact hu.1) hm]
  exact Or.inr ⟨rfl, by simp, t + BatchProcessor.REALTIME_DEBOUNCE_MS, rfl, hd⟩

/-- Outside the window, any message preserves `Good`: either a flush was
already emitted (and the log never shrinks) or the conversation stays armed
with a refreshed debounce deadline — unless the pending timer fires on
arrival, which emits the owed flush. -/
theorem good_step (startedAt endTime : Nat) (s : BatchProcessor.State)
    (t : Nat) (m : BatchProcessor.Msg)
    (ht : startedAt + BatchProcessor.STARTUP_WINDOW_MS ≤ t)
    (hd : t + BatchProcessor.REALTIME_DEBOUNCE_MS ≤ endTime)
    (hg : BatchProcessor.Good s endTime) :
    BatchProcessor.Good (BatchProcessor.processMessage startedAt s t m) endTime := by
  rcases hg with hne | ⟨hTrig, hBuf, d, hdeb, hdle⟩
  · refine Or.inl ?_
    rw [processMessage_flushes]
    exact fireTimersUpTo_flushes_ne s t hne
  · by_cases hfire : ∃ dd, BatchProcessor.nextDeadline s = some dd ∧ dd ≤ t
    · obtain ⟨dd, hnd, hle⟩ := hfire
      refine Or.inl ?_
      rw [processMessage_flushes]
      simp only [BatchProcessor.fireTimersUpTo, hnd, if_pos hle]
      rw [doFlush_flushes_of_buffer s dd hBuf]
      simp
    · have hid : BatchProcessor.fireTimersUpTo s t = s := by
        cases hnd : BatchProcessor.nextDeadline s with
        | none => simp [BatchProcessor.fireTimersUpTo, hnd]
        | some dd =>
          have hnle : ¬dd ≤ t := fun hle => hfire ⟨dd, hnd, hle⟩
          simp only [BatchProcessor.fireTimersUpTo, hnd, if_neg hnle]
      rw [processMessage_armed startedAt s t m ht (by rw [hid]; exact hTrig)]
      rw [hid]
      exact Or.inr ⟨hTrig, by simp, t + BatchProcessor.REALTIME_DEBOUNCE_MS, rfl, hd⟩

/-- A conversation owing a flush by `endTime` has flushed once the clock
reaches `endTime`. -/
theorem good_final (endTime : Nat) (s : BatchProcessor.State)
    (hg : BatchProcessor.Good s endTime) :
    (BatchProcessor.fireTimersUpTo s endTime).flushes ≠ [] := by
  rcases hg with hne | ⟨_, hBuf, d, hdeb, hdle⟩
  · exact fireTimersUpTo_flushes_ne s endTime hne
  · have hdd : ∃ dd, BatchProcessor.nextDeadline s = some dd ∧ dd ≤ endTime := by
      unfold BatchProcessor.nextDeadline
      rw [hdeb]
      cases hmw : s.maxWaitAt with
      | none => exact ⟨d, rfl, hdle⟩
      | some b => exact ⟨min d b, rfl, le_trans (min_le_left d b) hdle⟩
    obtain ⟨dd, hnd, hle⟩ := hdd
    simp only [BatchProcessor.fireTimersUpTo, hnd, if_pos hle]
    rw [doFlush_flushes_of_buffer s dd hBuf]
    simp

/-- Messages delivered inside the startup window keep the conversation
unarmed and emit no flush, whatever their trigger flags. -/
theorem startup_fold (startedAt : Nat) :
    ∀ (events : List (Nat × BatchProcessor.Msg)) (s : BatchProcessor.State),
      (∀ e ∈ events, e.1 < startedAt + BatchProcessor.STARTUP_WINDOW_MS) →
      BatchProcessor.Unarmed s →
      BatchProcessor.Unarmed (events.foldl (BatchProcessor.step startedAt) s)
      ∧ (events.foldl (BatchProcessor.step startedAt) s).flushes = s.flushes := by
  intro events
  induction events with
  | nil => exact fun s _ hu => ⟨hu, rfl⟩
  | cons e rest ih =>
    intro s hall hu
    have he : e.1 < startedAt + BatchProcessor.STARTUP_WINDOW_MS :=
      hall e (List.mem_cons_self e rest)
    have hstep : BatchProcessor.step startedAt s e
        = { s with buffer := s.buffer ++ [e.2] } :=
      processMessage_startup startedAt s e.1 e.2 he hu
    have hu2 : BatchProcessor.Unarmed (BatchProcessor.step startedAt s e) := by
      rw [hstep]
      exact ⟨hu.1, hu.2.1, hu.2.2⟩
    obtain ⟨h1, h2⟩ := ih (BatchProcessor.step startedAt s e)
      (fun x hx => hall x (List.mem_cons_of_mem e hx)) hu2
    refine ⟨by simpa using h1, ?_⟩
    rw [List.foldl_cons, h2, hstep]

/-- Over a sequence delivered after the window closes, a conversation stays
unarmed or `Good`, and once a trigger has been delivered it is `Good`. -/
theorem good_or_unarmed_fold (startedAt endTime : Nat) :
    ∀ (events : List (Nat × BatchProcessor.Msg)) (s : BatchProcessor.State),
      (∀ e ∈ events, startedAt + BatchProcessor.STARTUP_WINDOW_MS ≤ e.1
        ∧ e.1 + BatchProcessor.REALTIME_DEBOUNCE_MS ≤ endTime) →
      (BatchProcessor.Unarmed s ∨ BatchProcessor.Good s endTime) →
      (BatchProcessor.Unarmed (events.foldl (BatchProcessor.step startedAt) s)
        ∨ BatchProcessor.Good (events.foldl (BatchProcessor.step startedAt) s) endTime)
      ∧ (((∃ e ∈ events, e.2.isTrigger = true) ∨ BatchProcessor.Good s endTime) →
          BatchProcessor.Good (events.foldl (BatchProcessor.step startedAt) s) endTime) := by
  intro events
  induction events with
  | nil =>
    intro s _ hinv
    refine ⟨hinv, ?_⟩
    rintro (⟨e, he, _⟩ | hg)
    · exact absurd he (List.not_mem_nil e)
    · exact hg
  | cons e rest ih =>
    intro s hall hinv
    have he := hall e (List.mem_cons_self e rest)
    have hrest : ∀ x ∈ rest, startedAt + BatchProcessor.STARTUP_WINDOW_MS ≤ x.1
        ∧ x.1 + BatchProcessor.REALTIME_DEBOUNCE_MS ≤ endTime :=
      fun x hx => hall x (List.mem_cons_of_mem e hx)
    have hinv2 : BatchProcessor.Unarmed (BatchProcessor.step startedAt s e)
        ∨ BatchProcessor.Good (BatchProcessor.step startedAt s e) endTime := by
      rcases hinv with hu | hg
      · by_cases hm : e.2.isTrigger = true
        · exact Or.inr (arm_step startedAt endTime s e.1 e.2 he.1 he.2 hu hm)
        · exact Or.inl (unarmed_step startedAt s e.1 e.2 hu (by
            cases hb : e.2.isTrigger
            · rfl
            · exact absurd hb hm))
      · exact Or.inr (good_step startedAt endTime s e.1 e.2 he.1 he.2 hg)
    obtain ⟨ha, hb⟩ := ih (BatchProcessor.step startedAt s e) hrest hinv2
    refine ⟨by simpa using ha, ?_⟩
    rintro (⟨x, hx, hxt⟩ | hg)
    · rcases List.mem_cons.mp hx with hxe | hxr
      · have hxt2 : e.2.isTrigger = true := hxe ▸ hxt
        have hgood : BatchProcessor.Good (BatchProcessor.step startedAt s e) endTime := by
          rcases hinv with hu | hgs
          · exact arm_step startedAt endTime s e.1 e.2 he.1 he.2 hu hxt2
          · exact good_step startedAt endTime s e.1 e.2 he.1 he.2 hgs
        simpa using hb (Or.inr hgood)
      · simpa using hb (Or.inl ⟨x, hxr, hxt⟩)
    · have hgood : BatchProcessor.Good (BatchProcessor.step startedAt s e) endTime :=
        good_step startedAt endTime s e.1 e.2 he.1 he.2 hg
      simpa using hb (Or.inr hgood)

/-- C1: a message sequence delivered entirely inside the startup window never
triggers a flush, whatever its trigger flags; an identical sequence (one
containing a trigger) delivered after the window closes does flush, once the
clock passes its debounce deadlines. -/
theorem C1_startup_window :
    ∀ (startedAt : Nat) (events : List (Nat × BatchProcessor.Msg)) (endTime : Nat),
      ((∀ e ∈ events, e.1 < startedAt + BatchProcessor.STARTUP_WINDOW_MS) →
        (BatchProcessor.run startedAt events endTime).flushes = [])
      ∧ ((∀ e ∈ events, startedAt + BatchProcessor.STARTUP_WINDOW_MS ≤ e.1) →
         (∀ e ∈ events, e.1 + BatchProcessor.REALTIME_DEBOUNCE_MS ≤ endTime) →
         (∃ e ∈ events, e.2.isTrigger = true) →
         (BatchProcessor.run startedAt events endTime).flushes ≠ []) := by
  intro startedAt events endTime
  constructor
  · intro hall
    obtain ⟨hu, hfl⟩ := startup_fold startedAt events BatchProcessor.initState hall
      ⟨rfl, rfl, rfl⟩
    unfold BatchProcessor.run
    rw [fireTimersUpTo_of_unarmed _ _ hu, hfl]
    rfl
  · intro hall hend hex
    have hinv := good_or_unarmed_fold startedAt endTime events BatchProcessor.initState
      (fun e he => ⟨hall e he, hend e he⟩) (Or.inl ⟨rfl, rfl, rfl⟩)
    exact good_final endTime _ (hinv.2 (Or.inl hex))

/-- Witness for C1: a trigger at 0 ms (inside the window) never flushes, and
the same trigger delivered at 10000 ms (right after the window) flushes by
12000 ms. -/
theorem C1_startup_window_witness :
    (BatchProcessor.run 0 [(0, ⟨1, true⟩)] 50000).flushes = []
    ∧ (BatchProcessor.run 0 [(10000, ⟨1, true⟩)] 12000).flushes ≠ [] :=
  ⟨(C1_startup_window 0 [(0, ⟨1, true⟩)] 50000).1 (by decide),
   (C1_startup_window 0 [(10000, ⟨1, true⟩)] 12000).2 (by decide) (by decide)
     ⟨(10000, ⟨1, true⟩), by decide, rfl⟩⟩

/-- C2: the debounce timer runs 2000 ms from the most recent message and is
restarted by every message of an already armed conversation; on the concrete
scenario — trigger at 10000 ms, plain messages at 10500 ms and 11000 ms —
exactly one flush occurs, containing all three messages, 2000 ms after the
last message. -/
theorem C2_debounce_restart :
    (∀ (startedAt : Nat) (s : BatchProcessor.State) (t : Nat) (m : BatchProcessor.Msg),
      startedAt + BatchProcessor.STARTUP_WINDOW_MS ≤ t →
      (BatchProcessor.fireTimersUpTo s t).hasTrigger = true →
      (BatchProcessor.processMessage startedAt s t m).debounceAt
        = some (t + BatchProcessor.REALTIME_DEBOUNCE_MS))
    ∧ (BatchProcessor.run 0 BatchProcessor.c2events 20000).flushes
        = [([⟨1, true⟩, ⟨2, false⟩, ⟨3, false⟩],
            11000 + BatchProcessor.REALTIME_DEBOUNCE_MS)] := by
  constructor
  · intro startedAt s t m ht ha
    rw [processMessage_armed startedAt s t m ht ha]
  · rfl

/-- Witness for C2 on a concrete armed conversation receiving a plain message
at 10500 ms. -/
theorem C2_debounce_restart_witness :
    (BatchProcessor.processMessage 0
        ⟨[⟨1, true⟩], true, some 12000, some 20000, []⟩ 10500 ⟨2, false⟩).debounceAt
      = some (10500 + BatchProcessor.REALTIME_DEBOUNCE_MS) :=
  C2_debounce_restart.1 0 ⟨[⟨1, true⟩], true, some 12000, some 20000, []⟩ 10500 ⟨2, false⟩
    (by decide) (by decide)

/-- C3: the max-wait timer is started only by the first trigger (at 10000 ms
from it) and is never reset by later messages of the armed conversation; on
the concrete scenario — trigger at 10000 ms followed by plain messages every
1500 ms for 8 iterations — exactly one flush occurs, at the max-wait deadline
10000 ms after the trigger, not held open by the debounce resets. -/
theorem C3_max_wait :
    (∀ (startedAt : Nat) (s : BatchProcessor.State) (t : Nat) (m : BatchProcessor.Msg),
      startedAt + BatchProcessor.STARTUP_WINDOW_MS ≤ t →
      ((BatchProcessor.fireTimersUpTo s t).hasTrigger = false → m.isTrigger = true →
        (BatchProcessor.processMessage startedAt s t m).maxWaitAt
          = some (t + BatchProcessor.MAX_BATCH_WAIT_MS))
      ∧ ((BatchProcessor.fireTimersUpTo s t).hasTrigger = true →
        (BatchProcessor.processMessage startedAt s t m).maxWaitAt
          = (BatchProcessor.fireTimersUpTo s t).maxWaitAt))
    ∧ (BatchProcessor.run 0 BatchProcessor.c3events 35000).flushes
        = [([⟨1, true⟩, ⟨2, false⟩, ⟨3, false⟩, ⟨4, false⟩, ⟨5, false⟩, ⟨6, false⟩,
             ⟨7, false⟩],
            10000 + BatchProcessor.MAX_BATCH_WAIT_MS)] := by
  constructor
  · intro startedAt s t m ht
    constructor
    · intro hna hm
      rw [processMessage_arms startedAt s t m ht hna hm]
    · intro ha
      rw [processMessage_armed startedAt s t m ht ha]
  · rfl

/-- Witness for C3 on a fresh conversation triggered at 10000 ms. -/
theorem C3_max_wait_witness :
    (BatchProcessor.processMessage 0 BatchProcessor.initState 10000 ⟨1, true⟩).maxWaitAt
      = some (10000 + BatchProcessor.MAX_BATCH_WAIT_MS) :=
  (C3_max_wait.1 0 BatchProcessor.initState 10000 ⟨1, true⟩ (by decide)).1
    (by decide) rfl
